import Mathlib

/-!
Verification of the MODREED demo application core: a shallow embedding of
the video capture component (`video_capture.py`), the Live API session
client (`live_api_client.py`), the audio handler (`audio_handler.py`),
the snapshot tool bridge (`snapshot_tool.py`) and the image manager
(`image_manager.py`), together with theorems settling the behavioural
claims about them.

Modelling conventions: machine state becomes a Lean structure and each
Python method becomes a pure function from state to state, paired with a
trace of the observable effects it performs (callback invocations,
channel sends).  Device reads and channel outcomes are inputs to the
functions that consume them.  Python exceptions are modelled explicitly:
an exception-raising callback is an oracle input, and the control flow of
the embedded functions follows the try/except structure of the source.
-/

/-! ## Configuration constants (config.py) -/

def VIDEO_FPS : Nat := 1

def VIDEO_WIDTH : Nat := 768

def VIDEO_HEIGHT : Nat := 768

def AUDIO_CHUNK_SIZE : Nat := 4200

/-! ## Frames and the external image library

A frame is an in-memory raster (a numpy array in the source): a height, a
width and flat pixel data.  The OpenCV primitives used by the source
(`cv2.cvtColor`, `cv2.resize`, `cv2.imencode`) are external library
calls; they are modelled as executable Lean functions.  `cv2.resize`
always produces a raster of the requested dimensions, with pixel content
abstracted as a deterministic function of the source raster.
`cv2.imencode` with the JPEG encoder succeeds on every valid in-memory
raster, so it is modelled as a total, injective encoding that records the
quality setting and the dimensions of the encoded raster. -/

structure Frame where
  height : Nat
  width : Nat
  data : List Nat
deriving Repr, DecidableEq

/-- Model of cv2.cvtColor with COLOR_BGR2RGB: swaps the first and third
channel of every pixel triple. -/
def swapBGR : List Nat → List Nat
  | b :: g :: r :: rest => r :: g :: b :: swapBGR rest
  | rest => rest

def cvtColorBGR2RGB (f : Frame) : Frame :=
  { f with data := swapBGR f.data }

/-- Model of cv2.resize: a raster of the requested width and height whose
pixel content is a function of the source raster. -/
def cvResize (f : Frame) (w h : Nat) : Frame :=
  { height := h, width := w, data := f.data }

/-- Model of cv2.imencode with the JPEG encoder at a given quality: a
total, injective byte encoding recording quality and dimensions. -/
def imencodeJpg (f : Frame) (quality : Nat) : List Nat :=
  quality :: f.height :: f.width :: f.data

/-- Dimensions recoverable by decoding the JPEG byte model: (width, height). -/
def jpegDims : List Nat → Option (Nat × Nat)
  | _ :: h :: w :: _ => some (w, h)
  | _ => none

/-- Model of base64.b64encode: an injective placeholder encoding; the
claims only inspect presence and non-emptiness of the encoded payload. -/
def b64encode (bs : List Nat) : List Nat := bs

/-! ## VideoCapture (video_capture.py) -/

/-- State of a VideoCapture instance.  The cv2 device handle `cap` is an
opaque token; callback registration is a Boolean. -/
structure VideoCapture where
  camera_index : Nat
  cap : Option Nat
  is_capturing : Bool
  current_frame : Option Frame
  is_paused : Bool
  paused_frame : Option Frame
  on_frame : Bool
deriving Repr, DecidableEq

/-- VideoCapture.pause: set is_paused and, when a current frame exists,
store a defensive copy as the paused frame (copying is the identity on
immutable Lean values). -/
def VideoCapture.pause (vc : VideoCapture) : VideoCapture :=
  let vc := { vc with is_paused := true }
  match vc.current_frame with
  | some f => { vc with paused_frame := some f }
  | none => vc

/-- VideoCapture.resume: clear is_paused and drop the paused frame. -/
def VideoCapture.resume (vc : VideoCapture) : VideoCapture :=
  { vc with is_paused := false, paused_frame := none }

/-- VideoCapture.get_current_frame: the paused frame while paused and one
exists, the live current frame otherwise. -/
def VideoCapture.get_current_frame (vc : VideoCapture) : Option Frame :=
  match vc.is_paused, vc.paused_frame with
  | true, some f => some f
  | _, _ => vc.current_frame

/-- VideoCapture.capture_snapshot: take the current (possibly frozen)
frame, resize it to the configured resolution when its dimensions differ,
and JPEG-encode it at quality 85.  Returns none when no frame is
available.  The success flag returned by cv2.imencode is true for every
valid raster, so the failed-encode branch of the source
(`return None` after `if success`) is unreachable in the model. -/
def VideoCapture.capture_snapshot (vc : VideoCapture) : Option (List Nat) :=
  match vc.get_current_frame with
  | none => none
  | some frame =>
      let frame :=
        if frame.width ≠ VIDEO_WIDTH ∨ frame.height ≠ VIDEO_HEIGHT then
          cvResize frame VIDEO_WIDTH VIDEO_HEIGHT
        else frame
      some (imencodeJpg frame 85)

/-- One iteration of the body of VideoCapture._capture_loop, with the
device read supplied as input (`none` models `ret == False`).  Returns
the new state and the frame delivered to the on_frame listener, if any.
The loop executes this body once per tick while is_capturing holds. -/
def VideoCapture.captureTick (vc : VideoCapture) (read : Option Frame) :
    VideoCapture × Option Frame :=
  if vc.is_paused then (vc, none)
  else
    match read with
    | some frame =>
        let frameRgb := cvtColorBGR2RGB frame
        ({ vc with current_frame := some frameRgb },
         if vc.on_frame then some frameRgb else none)
    | none => (vc, none)

/-- Iterated capture-loop ticks over a list of device reads. -/
def VideoCapture.captureTicks (vc : VideoCapture) : List (Option Frame) → VideoCapture
  | [] => vc
  | r :: rs => VideoCapture.captureTicks (vc.captureTick r).1 rs

/-- Frame-field invariant of every reachable VideoCapture state: a paused
frame is only ever a copy of a current frame, and the current frame is
never cleared, so a stored paused frame implies a stored current frame. -/
def frameInvariant (vc : VideoCapture) : Prop :=
  vc.paused_frame.isSome = true → vc.current_frame.isSome = true

/-! ## Snapshot tool bridge (snapshot_tool.py) -/

/-- A tool call message.  The source reads
`tool_call.get("function_call", {}).get("name", "")`: a missing
function_call entry or a missing name key both yield the empty string,
modelled by `none`. -/
structure ToolCall where
  function_call_name : Option String
deriving Repr, DecidableEq

def toolCallName (tc : ToolCall) : String :=
  tc.function_call_name.getD ""

/-- The function_response dictionary returned by
handle_snapshot_tool_call; absent keys are `none`. -/
structure ToolResponse where
  name : String
  snapshot_captured : Option Bool
  image_data : Option (List Nat)
  mime_type : Option String
  width : Option Nat
  height : Option Nat
  error : Option String
deriving Repr, DecidableEq

/-- Calls made on the VideoCapture by the bridge, in order. -/
inductive VCAction where
  | pauseCall
  | snapshotCall
  | resumeCall
deriving Repr, DecidableEq

/-- handle_snapshot_tool_call: for the recognized function name, pause the
video, capture a snapshot, resume, and build a success or failure
response; for any other name, return the unknown-function failure without
touching the VideoCapture.  The `await asyncio.sleep(0.1)` settle delay
before resume has no state effect and is not represented.  Returns the
response, the final VideoCapture state and the trace of VideoCapture
calls made. -/
def handle_snapshot_tool_call (tc : ToolCall) (vc : VideoCapture) :
    ToolResponse × VideoCapture × List VCAction :=
  let fname := toolCallName tc
  if fname = "capture_snapshot" then
    let vc1 := vc.pause
    match vc1.capture_snapshot with
    | some data =>
        if data.isEmpty then
          ({ name := fname, snapshot_captured := some false, image_data := none,
             mime_type := none, width := none, height := none,
             error := some "Failed to capture snapshot" }, vc1.resume,
           [VCAction.pauseCall, VCAction.snapshotCall, VCAction.resumeCall])
        else
          ({ name := fname, snapshot_captured := some true,
             image_data := some (b64encode data),
             mime_type := some "image/jpeg", width := some 768,
             height := some 768, error := none }, vc1.resume,
           [VCAction.pauseCall, VCAction.snapshotCall, VCAction.resumeCall])
    | none =>
        ({ name := fname, snapshot_captured := some false, image_data := none,
           mime_type := none, width := none, height := none,
           error := some "Failed to capture snapshot" }, vc1.resume,
         [VCAction.pauseCall, VCAction.snapshotCall, VCAction.resumeCall])
  else
    ({ name := fname, snapshot_captured := none, image_data := none,
       mime_type := none, width := none, height := none,
       error := some "Unknown function" }, vc, [])

/-! ## Live API session client (live_api_client.py)

The genai session object is an opaque handle; each callback slot is a
Boolean recording whether a callback is registered.  Observable effects
of the client are a list of ClientEvent values: state-change callback
invocations, channel sends, and listener invocations, in program order.
Channel send failures are caught and logged by the source without any
state effect, so no failure input is needed on the send paths; the
sessionSend / sendClientContent events record the attempted send. -/

structure LiveAPIClient where
  session : Option Nat
  is_connected : Bool
  is_speaking : Bool
  is_listening : Bool
  on_audio_received : Bool
  on_text_received : Bool
  on_transcription : Bool
  on_tool_call : Bool
  on_state_change : Bool
deriving Repr, DecidableEq

inductive ClientEvent where
  | stateChange (s : String)
  | sessionSend (data : List Nat) (mime : String)
  | sendClientContent (text : String)
  | transcription (payload direction : String)
  | audioReceived (data : List Nat)
  | textReceived (t : String)
  | toolCall (id : Nat)
deriving Repr, DecidableEq

/-- LiveAPIClient.send_audio: no-op unless a session exists and the
client is connected; otherwise transition to listening (firing the
state-change callback when registered) if not already listening, then
send the chunk as audio/pcm. -/
def send_audio (c : LiveAPIClient) (audio : List Nat) :
    LiveAPIClient × List ClientEvent :=
  if c.session.isNone ∨ c.is_connected = false then (c, [])
  else if c.is_listening = false then
    ({ c with is_listening := true },
     (if c.on_state_change then [ClientEvent.stateChange "listening"] else [])
       ++ [ClientEvent.sessionSend audio "audio/pcm"])
  else (c, [ClientEvent.sessionSend audio "audio/pcm"])

/-- LiveAPIClient.send_video_frame: no-op unless connected; otherwise a
plain channel send of the frame bytes with the given mime type. -/
def send_video_frame (c : LiveAPIClient) (frame_data : List Nat) (mime : String) :
    LiveAPIClient × List ClientEvent :=
  if c.session.isNone ∨ c.is_connected = false then (c, [])
  else (c, [ClientEvent.sessionSend frame_data mime])

/-- LiveAPIClient.send_text: no-op unless connected; otherwise a client
content send of the text. -/
def send_text (c : LiveAPIClient) (text : String) :
    LiveAPIClient × List ClientEvent :=
  if c.session.isNone ∨ c.is_connected = false then (c, [])
  else (c, [ClientEvent.sendClientContent text])

/-- One content part of a model turn: optional inline blob
(mime type and data) and optional text (the source also checks that the
text is non-empty, matching Python truthiness). -/
structure TurnPart where
  inline_data : Option (String × List Nat)
  text : Option String
deriving Repr, DecidableEq

structure ServerContent where
  input_transcription : Option String
  output_transcription : Option String
  model_turn : Option (List TurnPart)
  generation_complete : Bool
deriving Repr, DecidableEq

structure Message where
  server_content : Option ServerContent
  tool_call : Option Nat
deriving Repr, DecidableEq

/-- Accumulator for the receive loop of the client: the client state, the
trace of events so far, and whether a callback has raised an exception
(which aborts processing at that point). -/
structure RecvAcc where
  client : LiveAPIClient
  trace : List ClientEvent
  raised : Bool
deriving Repr, DecidableEq

/-- Invoke a callback: skipped after an exception or when no callback is
registered; otherwise the event is recorded and the raise oracle decides
whether the callback throws. -/
def fire (raises : ClientEvent → Bool) (acc : RecvAcc) (registered : Bool)
    (ev : ClientEvent) : RecvAcc :=
  if acc.raised then acc
  else if registered then
    { acc with trace := acc.trace ++ [ev], raised := raises ev }
  else acc

/-- Run a processing step only when no exception is pending. -/
def recvStep (acc : RecvAcc) (f : RecvAcc → RecvAcc) : RecvAcc :=
  if acc.raised then acc else f acc

/-- Processing of one model-turn part inside _receive_messages: inline
audio/pcm data triggers the speaking transition (once) and the audio
listener; non-empty text triggers the text listener. -/
def processPart (raises : ClientEvent → Bool) (acc : RecvAcc) (part : TurnPart) :
    RecvAcc :=
  recvStep acc fun acc =>
    let acc :=
      match part.inline_data with
      | some (mime, data) =>
          if mime = "audio/pcm" then
            let acc :=
              if acc.client.is_speaking then acc
              else
                let c := { acc.client with is_speaking := true, is_listening := false }
                fire raises { acc with client := c } c.on_state_change
                  (ClientEvent.stateChange "speaking")
            fire raises acc acc.client.on_audio_received (ClientEvent.audioReceived data)
          else acc
      | none => acc
    match part.text with
    | some t =>
        if t.length ≠ 0 then
          fire raises acc acc.client.on_text_received (ClientEvent.textReceived t)
        else acc
    | none => acc

/-- Processing of a server_content value inside _receive_messages. -/
def processServerContent (raises : ClientEvent → Bool) (acc : RecvAcc)
    (sc : ServerContent) : RecvAcc :=
  let acc :=
    match sc.input_transcription with
    | some t => fire raises acc acc.client.on_transcription
        (ClientEvent.transcription t "input")
    | none => acc
  let acc :=
    match sc.output_transcription with
    | some t => fire raises acc acc.client.on_transcription
        (ClientEvent.transcription t "output")
    | none => acc
  let acc :=
    match sc.model_turn with
    | some parts => parts.foldl (processPart raises) acc
    | none => acc
  if sc.generation_complete then
    recvStep acc fun acc =>
      let c := { acc.client with is_speaking := false }
      fire raises { acc with client := c } c.on_state_change
        (ClientEvent.stateChange "idle")
  else acc

/-- Processing of one inbound message by the body of the receive loop. -/
def processMessage (raises : ClientEvent → Bool) (c : LiveAPIClient)
    (msg : Message) : RecvAcc :=
  let acc : RecvAcc := { client := c, trace := [], raised := false }
  let acc :=
    match msg.server_content with
    | some sc => processServerContent raises acc sc
    | none => acc
  match msg.tool_call with
  | some id => fire raises acc acc.client.on_tool_call (ClientEvent.toolCall id)
  | none => acc

/-- The except-branch of _receive_messages: clear is_connected and fire
the error state-change when a callback is registered. -/
def errorExit (c : LiveAPIClient) : LiveAPIClient × List ClientEvent :=
  if c.on_state_change then
    ({ c with is_connected := false }, [ClientEvent.stateChange "error"])
  else ({ c with is_connected := false }, [])

/-- The receive loop over a list of inbound messages.  `streamFails`
records whether the inbound iterator itself raises after yielding the
listed messages.  Any exception escaping the loop body (from a raising
callback) or the iterator lands in the except branch: the loop stops,
is_connected is cleared and the error state-change fires. -/
def receiveLoopAux (raises : ClientEvent → Bool) :
    LiveAPIClient → List Message → Bool → LiveAPIClient × List ClientEvent
  | c, [], streamFails => if streamFails then errorExit c else (c, [])
  | c, m :: rest, streamFails =>
      let acc := processMessage raises c m
      if acc.raised then
        ((errorExit acc.client).1, acc.trace ++ (errorExit acc.client).2)
      else
        ((receiveLoopAux raises acc.client rest streamFails).1,
         acc.trace ++ (receiveLoopAux raises acc.client rest streamFails).2)

/-- LiveAPIClient._receive_messages: immediate return when no session
exists, otherwise the receive loop. -/
def receive_messages (raises : ClientEvent → Bool) (c : LiveAPIClient)
    (msgs : List Message) (streamFails : Bool) :
    LiveAPIClient × List ClientEvent :=
  match c.session with
  | none => (c, [])
  | some _ => receiveLoopAux raises c msgs streamFails

/-! ## AudioHandler (audio_handler.py) -/

/-- State of an AudioHandler: stream handles are presence Booleans, and
the input callback slot records whether a listener is registered. -/
structure AudioHandler where
  input_stream : Bool
  output_stream : Bool
  is_recording : Bool
  is_playing : Bool
  is_muted : Bool
  on_audio_input : Bool
deriving Repr, DecidableEq

def AudioHandler.mute (a : AudioHandler) : AudioHandler :=
  { a with is_muted := true }

def AudioHandler.unmute (a : AudioHandler) : AudioHandler :=
  { a with is_muted := false }

/-- Outcome of one blocking device read: a chunk, or an exception (which
the source catches and logs, continuing the loop). -/
inductive ReadResult where
  | ok (chunk : List Nat)
  | err
deriving Repr, DecidableEq

/-- One iteration of the body of AudioHandler._input_loop, returning the
chunks delivered to the input listener on that tick (zero or one).  The
enclosing while loop executes this body once per tick while is_recording
holds. -/
def AudioHandler.inputTick (a : AudioHandler) (r : ReadResult) : List (List Nat) :=
  if a.input_stream = true ∧ a.is_muted = false then
    match r with
    | ReadResult.ok chunk => if a.on_audio_input then [chunk] else []
    | ReadResult.err => []
  else []

/-- Deliveries over a sequence of input-loop ticks with the handler state
held fixed (mute and stream state change only between ticks, through
external calls). -/
def AudioHandler.inputTicks (a : AudioHandler) : List ReadResult → List (List Nat)
  | [] => []
  | r :: rs => a.inputTick r ++ a.inputTicks rs

/-! ## ImageManager (image_manager.py)

The database is a list of CapturedImage records; the timestamp-derived
filename, the file write and the SQL session are environment concerns
supplied as arguments or dropped.  update_image looks up the record by id
and applies the requested field updates with no validation of the state
string, exactly as the source does. -/

structure CapturedImage where
  id : Nat
  filename : String
  filepath : String
  name : Option String
  category : Option String
  state : String
  image_metadata : Option String
deriving Repr, DecidableEq

/-- The documented lifecycle states of a CapturedImage record. -/
def validStates : List String := ["CAPTURED", "USED", "DISCARDED"]

/-- ImageManager.store_image: append a fresh record whose state is the
literal CAPTURED. -/
def store_image (db : List CapturedImage) (newId : Nat)
    (filename filepath : String) (name category : Option String)
    (metadata : Option String) : List CapturedImage × CapturedImage :=
  let record : CapturedImage :=
    { id := newId, filename := filename, filepath := filepath, name := name,
      category := category, state := "CAPTURED", image_metadata := metadata }
  (db ++ [record], record)

/-- The field updates applied by ImageManager.update_image to the found
record: each argument overwrites its field when present. -/
def applyUpdate (r : CapturedImage) (name category state : Option String) :
    CapturedImage :=
  let r1 := match name with | some n => { r with name := some n } | none => r
  let r2 := match category with | some c => { r1 with category := some c } | none => r1
  match state with | some s => { r2 with state := s } | none => r2

/-- ImageManager.update_image: find the record by id; when found, apply
the updates (without validating the state string) and return the updated
record; otherwise leave the database unchanged and return none. -/
def update_image (db : List CapturedImage) (image_id : Nat)
    (name category state : Option String) :
    List CapturedImage × Option CapturedImage :=
  match db.find? (fun r => r.id == image_id) with
  | none => (db, none)
  | some r =>
      (db.map (fun x =>
        if x.id == image_id then applyUpdate x name category state else x),
       some (applyUpdate r name category state))

/-- ImageManager.mark_as_used: update_image with state USED; true when
the record was found. -/
def mark_as_used (db : List CapturedImage) (image_id : Nat) :
    List CapturedImage × Bool :=
  ((update_image db image_id none none (some "USED")).1,
   (update_image db image_id none none (some "USED")).2.isSome)

/-- ImageManager.mark_as_discarded: update_image with state DISCARDED;
true when the record was found. -/
def mark_as_discarded (db : List CapturedImage) (image_id : Nat) :
    List CapturedImage × Bool :=
  ((update_image db image_id none none (some "DISCARDED")).1,
   (update_image db image_id none none (some "DISCARDED")).2.isSome)

/-! ## Concrete states used by witnesses and counterexamples -/

def vcSnapshotW : VideoCapture :=
  { camera_index := 0, cap := some 0, is_capturing := true,
    current_frame := some ⟨600, 800, [5]⟩, is_paused := false,
    paused_frame := none, on_frame := false }

def vcNoFrame : VideoCapture :=
  { camera_index := 0, cap := some 0, is_capturing := true,
    current_frame := none, is_paused := false,
    paused_frame := none, on_frame := false }

def tcSnap : ToolCall := { function_call_name := some "capture_snapshot" }

def tcUnknown : ToolCall := { function_call_name := some "do_other_thing" }

def cSpeaking : LiveAPIClient :=
  { session := some 0, is_connected := true, is_speaking := true,
    is_listening := false, on_audio_received := true, on_text_received := true,
    on_transcription := true, on_tool_call := true, on_state_change := true }

def cRecv : LiveAPIClient :=
  { session := some 0, is_connected := true, is_speaking := false,
    is_listening := false, on_audio_received := true, on_text_received := true,
    on_transcription := true, on_tool_call := true, on_state_change := true }

def cDisc : LiveAPIClient :=
  { session := some 0, is_connected := false, is_speaking := false,
    is_listening := false, on_audio_received := false, on_text_received := false,
    on_transcription := false, on_tool_call := false, on_state_change := false }

def raisesOnTranscription : ClientEvent → Bool
  | ClientEvent.transcription _ _ => true
  | _ => false

def scTranscriptionIn : ServerContent :=
  { input_transcription := some "hi", output_transcription := none,
    model_turn := none, generation_complete := false }

def msgTranscriptionIn : Message :=
  { server_content := some scTranscriptionIn, tool_call := none }

def msgToolCallOnly : Message :=
  { server_content := none, tool_call := some 5 }

def audioMutedW : AudioHandler :=
  { input_stream := true, output_stream := false, is_recording := true,
    is_playing := false, is_muted := true, on_audio_input := true }

def dbCex : List CapturedImage :=
  [{ id := 1, filename := "snapshot_1.jpg",
     filepath := "static/images/snapshot_1.jpg", name := none,
     category := none, state := "CAPTURED", image_metadata := none }]

/-! ## Helper lemmas -/

theorem frameInvariant_pause (vc : VideoCapture) (h : frameInvariant vc) :
    frameInvariant vc.pause := by
  unfold frameInvariant VideoCapture.pause at *
  cases hc : vc.current_frame <;> simp [hc] at *
  exact h

theorem frameInvariant_resume (vc : VideoCapture) :
    frameInvariant vc.resume := by
  unfold frameInvariant VideoCapture.resume
  simp

theorem frameInvariant_captureTick (vc : VideoCapture) (read : Option Frame)
    (h : frameInvariant vc) : frameInvariant (vc.captureTick read).1 := by
  unfold frameInvariant VideoCapture.captureTick at *
  cases hp : vc.is_paused <;> cases read <;> simp [hp] at *
  · intro hps
    exact h hps
  · intro hps
    exact h hps
  · exact h

/-- Capture-loop ticks leave a paused VideoCapture entirely unchanged:
the loop body is skipped while is_paused holds. -/
theorem captureTicks_paused (vc : VideoCapture) (reads : List (Option Frame))
    (h : vc.is_paused = true) : vc.captureTicks reads = vc := by
  induction reads with
  | nil => rfl
  | cons r rs ih =>
      unfold VideoCapture.captureTicks VideoCapture.captureTick
      simp [h, ih]

theorem errorExit_disconnects (c : LiveAPIClient) :
    (errorExit c).1.is_connected = false := by
  unfold errorExit
  cases h : c.on_state_change <;> simp [h]

/-- After a failed inbound stream the receive loop always ends with the
connected flag cleared. -/
theorem receiveLoopAux_streamFails_disconnects (raises : ClientEvent → Bool) :
    ∀ (msgs : List Message) (c : LiveAPIClient),
      (receiveLoopAux raises c msgs true).1.is_connected = false := by
  intro msgs
  induction msgs with
  | nil =>
      intro c
      unfold receiveLoopAux
      simpa using errorExit_disconnects c
  | cons m rest ih =>
      intro c
      unfold receiveLoopAux
      cases hr : (processMessage raises c m).raised <;> simp [hr]
      · exact ih (processMessage raises c m).client
      · exact errorExit_disconnects (processMessage raises c m).client

/-- All three send paths are no-ops on a client that is not connected. -/
theorem sends_noop (c : LiveAPIClient) (audio fd : List Nat) (mime t : String)
    (h : c.is_connected = false) :
    send_audio c audio = (c, []) ∧ send_video_frame c fd mime = (c, []) ∧
      send_text c t = (c, []) := by
  unfold send_audio send_video_frame send_text
  simp [h]

theorem applyUpdate_state (r : CapturedImage) (nm cat st : Option String) :
    (applyUpdate r nm cat st).state = st.getD r.state := by
  unfold applyUpdate
  cases nm <;> cases cat <;> cases st <;> rfl

/-- update_image preserves membership of every state in validStates as
long as the state argument, when present, is itself in validStates. -/
theorem update_image_preserves_states (db : List CapturedImage) (image_id : Nat)
    (nm cat st : Option String)
    (hdb : ∀ r ∈ db, r.state ∈ validStates)
    (hst : st = none ∨ ∃ s ∈ validStates, st = some s) :
    ∀ r ∈ (update_image db image_id nm cat st).1, r.state ∈ validStates := by
  unfold update_image
  cases hfind : db.find? (fun r => r.id == image_id) with
  | none =>
      simpa using hdb
  | some r0 =>
      intro r hr
      simp only [List.mem_map] at hr
      obtain ⟨x, hx, hmap⟩ := hr
      by_cases hid : (x.id == image_id) = true
      · rw [if_pos hid] at hmap
        rw [← hmap, applyUpdate_state]
        cases hst with
        | inl hn => rw [hn]; exact hdb x hx
        | inr hs =>
            obtain ⟨s, hsv, hse⟩ := hs
            rw [hse]
            exact hsv
      · rw [if_neg hid] at hmap
        rw [← hmap]
        exact hdb x hx

/-! ## Claim theorems -/

/-- C1: after pause() is called on a VideoCapture whose current frame is
`f`, get_current_frame() returns exactly `f`, and it still returns `f`
after any number of further capture-loop ticks with any device reads,
until resume() is called. -/
theorem pause_freezes_current_frame (vc : VideoCapture) (f : Frame)
    (reads : List (Option Frame)) (h : vc.current_frame = some f) :
    vc.pause.get_current_frame = some f ∧
    (vc.pause.captureTicks reads).get_current_frame = some f := by
  have hpause : vc.pause =
      { vc with is_paused := true, paused_frame := some f } := by
    unfold VideoCapture.pause
    simp [h]
  have hfrozen : vc.pause.get_current_frame = some f := by
    rw [hpause]
    unfold VideoCapture.get_current_frame
    simp
  refine ⟨hfrozen, ?_⟩
  have hpaused : vc.pause.is_paused = true := by
    rw [hpause]
  rw [captureTicks_paused vc.pause reads hpaused]
  exact hfrozen

/-- Witness for C1 at a concrete state: a VideoCapture holding a 2x2
frame, paused, then ticked three times with fresh device frames. -/
theorem pause_freezes_current_frame_witness :
    (({ camera_index := 0, cap := some 0, is_capturing := true,
        current_frame := some ⟨2, 2, [1, 2, 3]⟩, is_paused := false,
        paused_frame := none, on_frame := true } : VideoCapture).current_frame
      = some ⟨2, 2, [1, 2, 3]⟩) ∧
    (({ camera_index := 0, cap := some 0, is_capturing := true,
        current_frame := some ⟨2, 2, [1, 2, 3]⟩, is_paused := false,
        paused_frame := none, on_frame := true } : VideoCapture).pause.captureTicks
        [some ⟨2, 2, [7, 7, 7]⟩, none, some ⟨2, 2, [9, 9, 9]⟩]).get_current_frame
      = some ⟨2, 2, [1, 2, 3]⟩ :=
  ⟨rfl,
   (pause_freezes_current_frame _ ⟨2, 2, [1, 2, 3]⟩
     [some ⟨2, 2, [7, 7, 7]⟩, none, some ⟨2, 2, [9, 9, 9]⟩] rfl).2⟩

/-- C8: capture_snapshot() on any VideoCapture satisfying the reachable
frame invariant: when a frame is available it returns exactly the JPEG
encoding at quality 85 of the frame resized to 768x768 (the resize is
skipped when the frame already has the canonical dimensions), the encoded
raster always decodes to 768x768, and the result is none exactly when no
frame has ever been captured (current_frame is none; under the invariant
the paused frame is then also absent). -/
theorem capture_snapshot_spec (vc : VideoCapture) (hinv : frameInvariant vc) :
    (∀ f, vc.get_current_frame = some f →
        vc.capture_snapshot =
          some (imencodeJpg
            (if f.width ≠ VIDEO_WIDTH ∨ f.height ≠ VIDEO_HEIGHT
             then cvResize f VIDEO_WIDTH VIDEO_HEIGHT else f) 85) ∧
        ∃ g, vc.capture_snapshot = some (imencodeJpg g 85) ∧
          g.width = 768 ∧ g.height = 768 ∧
          (vc.capture_snapshot.bind jpegDims) = some (768, 768)) ∧
    (vc.capture_snapshot = none ↔ vc.current_frame = none) := by
  constructor
  · intro f hf
    constructor
    · unfold VideoCapture.capture_snapshot
      rw [hf]
    · by_cases hdim : f.width ≠ VIDEO_WIDTH ∨ f.height ≠ VIDEO_HEIGHT
      · refine ⟨cvResize f VIDEO_WIDTH VIDEO_HEIGHT, ?_, rfl, rfl, ?_⟩
        · unfold VideoCapture.capture_snapshot
          rw [hf]
          simp [hdim]
        · unfold VideoCapture.capture_snapshot
          rw [hf]
          simp [hdim, jpegDims, imencodeJpg, cvResize]
          exact ⟨rfl, rfl⟩
      · push_neg at hdim
        refine ⟨f, ?_, hdim.1, hdim.2, ?_⟩
        · unfold VideoCapture.capture_snapshot
          rw [hf]
          simp [hdim.1, hdim.2]
        · unfold VideoCapture.capture_snapshot
          rw [hf]
          simp [hdim.1, hdim.2, jpegDims, imencodeJpg]
          exact ⟨rfl, rfl⟩
  · unfold VideoCapture.capture_snapshot VideoCapture.get_current_frame
    unfold frameInvariant at hinv
    cases hc : vc.current_frame with
    | none =>
        have hpn : vc.paused_frame = none := by
          cases hpf : vc.paused_frame with
          | none => rfl
          | some p =>
              have := hinv (by simp [hpf])
              simp [hc] at this
        cases hp : vc.is_paused <;> simp [hc, hpn]
    | some f =>
        cases hp : vc.is_paused with
        | false => simp [hc]
        | true =>
            cases hpf : vc.paused_frame with
            | none => simp [hc]
            | some p => simp [hc]

/-- Witness for C8 at a concrete state: a 800x600 frame is current, so a
snapshot is produced and it decodes to 768x768. -/
theorem capture_snapshot_spec_witness :
    vcSnapshotW.get_current_frame = some ⟨600, 800, [5]⟩ ∧
    vcSnapshotW.capture_snapshot.bind jpegDims = some (768, 768) :=
  ⟨rfl,
   (((capture_snapshot_spec vcSnapshotW (by intro h; simp [vcSnapshotW] at h)).1
      ⟨600, 800, [5]⟩ rfl).2).choose_spec.2.2.2⟩

/-- C5: a tool invocation carrying the recognized function name on a
VideoCapture in which no frame has ever been captured (neither a current
nor a paused frame is stored) returns a failure response, with
snapshot_captured false and a descriptive error, and leaves the
VideoCapture resumed (is_paused false). -/
theorem snapshot_tool_no_frame_failure (tc : ToolCall) (vc : VideoCapture)
    (hname : toolCallName tc = "capture_snapshot")
    (hcur : vc.current_frame = none) (hpau : vc.paused_frame = none) :
    (handle_snapshot_tool_call tc vc).1.snapshot_captured = some false ∧
    (handle_snapshot_tool_call tc vc).1.error = some "Failed to capture snapshot" ∧
    (handle_snapshot_tool_call tc vc).2.1.is_paused = false := by
  have hp : vc.pause = { vc with is_paused := true } := by
    unfold VideoCapture.pause
    simp [hcur]
  have hcs : vc.pause.capture_snapshot = none := by
    unfold VideoCapture.capture_snapshot VideoCapture.get_current_frame
    rw [hp]
    simp [hcur, hpau]
  unfold handle_snapshot_tool_call
  simp [hname, hcs, VideoCapture.resume]

/-- Witness for C5: the recognized tool call against the empty-state
VideoCapture. -/
theorem snapshot_tool_no_frame_failure_witness :
    toolCallName tcSnap = "capture_snapshot" ∧
    vcNoFrame.current_frame = none ∧ vcNoFrame.paused_frame = none ∧
    (handle_snapshot_tool_call tcSnap vcNoFrame).1.snapshot_captured = some false ∧
    (handle_snapshot_tool_call tcSnap vcNoFrame).2.1.is_paused = false :=
  ⟨rfl, rfl, rfl,
   (snapshot_tool_no_frame_failure tcSnap vcNoFrame rfl rfl rfl).1,
   (snapshot_tool_no_frame_failure tcSnap vcNoFrame rfl rfl rfl).2.2⟩

/-- C6: a tool invocation whose function name is not capture_snapshot
returns the unknown-function failure response, makes no pause, snapshot
or resume call on the VideoCapture, and leaves its state (in particular
is_paused, current_frame and paused_frame) exactly unchanged. -/
theorem snapshot_tool_unknown_function_isolated (tc : ToolCall) (vc : VideoCapture)
    (hname : toolCallName tc ≠ "capture_snapshot") :
    handle_snapshot_tool_call tc vc
      = ({ name := toolCallName tc, snapshot_captured := none, image_data := none,
           mime_type := none, width := none, height := none,
           error := some "Unknown function" }, vc, []) := by
  unfold handle_snapshot_tool_call
  simp [hname]

/-- Witness for C6: an unrecognized tool call against a VideoCapture that
holds a frame; the state comes back untouched and no VideoCapture call is
made. -/
theorem snapshot_tool_unknown_function_isolated_witness :
    toolCallName tcUnknown ≠ "capture_snapshot" ∧
    handle_snapshot_tool_call tcUnknown vcSnapshotW
      = ({ name := "do_other_thing", snapshot_captured := none, image_data := none,
           mime_type := none, width := none, height := none,
           error := some "Unknown function" }, vcSnapshotW, []) :=
  ⟨by decide, snapshot_tool_unknown_function_isolated tcUnknown vcSnapshotW (by decide)⟩

/-- C10: every success response of handle_snapshot_tool_call reports the
constant values width 768, height 768 and mime_type image/jpeg,
independent of the input VideoCapture and of the dimensions of the frame
it holds. -/
theorem snapshot_success_reports_fixed_dims (tc : ToolCall) (vc : VideoCapture)
    (hsucc : (handle_snapshot_tool_call tc vc).1.snapshot_captured = some true) :
    (handle_snapshot_tool_call tc vc).1.width = some 768 ∧
    (handle_snapshot_tool_call tc vc).1.height = some 768 ∧
    (handle_snapshot_tool_call tc vc).1.mime_type = some "image/jpeg" := by
  unfold handle_snapshot_tool_call at *
  by_cases hname : toolCallName tc = "capture_snapshot"
  · simp only [hname, if_pos] at hsucc ⊢
    cases hcs : (vc.pause).capture_snapshot with
    | none => simp [hcs] at hsucc
    | some data =>
        by_cases he : data.isEmpty
        · simp [hcs, he] at hsucc
        · simp [hcs, he]
  · simp [hname] at hsucc

/-- Witness for C10: the recognized tool call against a VideoCapture
holding an 800x600 frame succeeds and reports the constants. -/
theorem snapshot_success_reports_fixed_dims_witness :
    (handle_snapshot_tool_call tcSnap vcSnapshotW).1.snapshot_captured = some true ∧
    (handle_snapshot_tool_call tcSnap vcSnapshotW).1.width = some 768 ∧
    (handle_snapshot_tool_call tcSnap vcSnapshotW).1.mime_type = some "image/jpeg" :=
  ⟨by decide,
   (snapshot_success_reports_fixed_dims tcSnap vcSnapshotW (by decide)).1,
   (snapshot_success_reports_fixed_dims tcSnap vcSnapshotW (by decide)).2.2⟩

/-- C7: with the input loop running, the stream open and a listener
registered, a muted AudioHandler delivers zero chunks over any sequence
of input-loop ticks, and after unmute() the listener receives the chunk
on the next tick whose device read yields one. -/
theorem mute_suppresses_delivery (a : AudioHandler) (rs : List ReadResult)
    (chunk : List Nat) (hrec : a.is_recording = true)
    (hstream : a.input_stream = true) (hlis : a.on_audio_input = true)
    (hmut : a.is_muted = true) :
    a.inputTicks rs = [] ∧
    a.unmute.inputTick (ReadResult.ok chunk) = [chunk] := by
  constructor
  · induction rs with
    | nil => rfl
    | cons r rest ih =>
        unfold AudioHandler.inputTicks AudioHandler.inputTick
        simp [hmut, ih]
  · unfold AudioHandler.unmute AudioHandler.inputTick
    simp [hstream, hlis]

/-- Witness for C7: a muted handler over three ticks delivers nothing;
unmuting delivers the next read chunk. -/
theorem mute_suppresses_delivery_witness :
    audioMutedW.is_recording = true ∧ audioMutedW.is_muted = true ∧
    audioMutedW.inputTicks [ReadResult.ok [1], ReadResult.err, ReadResult.ok [2]] = [] ∧
    audioMutedW.unmute.inputTick (ReadResult.ok [3]) = [[3]] :=
  ⟨rfl, rfl,
   (mute_suppresses_delivery audioMutedW
     [ReadResult.ok [1], ReadResult.err, ReadResult.ok [2]] [3] rfl rfl rfl rfl).1,
   (mute_suppresses_delivery audioMutedW
     [ReadResult.ok [1], ReadResult.err, ReadResult.ok [2]] [3] rfl rfl rfl rfl).2⟩

/-- C2: send_audio, send_video_frame and send_text are no-ops (state
unchanged, nothing sent, no event fired) whenever the client is not
connected; and after a receive-loop failure the client is left
disconnected, so every subsequent send is such a no-op.  Exception paths
inside the sends are caught by the source, so no send raises. -/
theorem sends_noop_when_disconnected (c cInit : LiveAPIClient) (s : Nat)
    (raises : ClientEvent → Bool) (msgs : List Message)
    (audio fd : List Nat) (mime t : String)
    (hdis : c.is_connected = false) (hsess : cInit.session = some s) :
    (send_audio c audio = (c, []) ∧ send_video_frame c fd mime = (c, []) ∧
     send_text c t = (c, [])) ∧
    ((receive_messages raises cInit msgs true).1.is_connected = false ∧
     send_audio (receive_messages raises cInit msgs true).1 audio
       = ((receive_messages raises cInit msgs true).1, []) ∧
     send_video_frame (receive_messages raises cInit msgs true).1 fd mime
       = ((receive_messages raises cInit msgs true).1, []) ∧
     send_text (receive_messages raises cInit msgs true).1 t
       = ((receive_messages raises cInit msgs true).1, [])) := by
  have hafter : (receive_messages raises cInit msgs true).1.is_connected = false := by
    unfold receive_messages
    rw [hsess]
    exact receiveLoopAux_streamFails_disconnects raises msgs cInit
  exact ⟨sends_noop c audio fd mime t hdis,
    hafter, sends_noop _ audio fd mime t hafter⟩

/-- Witness for C2: a disconnected client, and a connected client whose
receive loop fails on an empty inbound stream. -/
theorem sends_noop_when_disconnected_witness :
    cDisc.is_connected = false ∧ cRecv.session = some 0 ∧
    send_audio cDisc [1] = (cDisc, []) ∧
    (receive_messages (fun _ => false) cRecv [] true).1.is_connected = false ∧
    send_text (receive_messages (fun _ => false) cRecv [] true).1 "hi"
      = ((receive_messages (fun _ => false) cRecv [] true).1, []) :=
  ⟨rfl, rfl,
   (sends_noop_when_disconnected cDisc cRecv 0 (fun _ => false) [] [1] [2]
     "image/jpeg" "hi" rfl rfl).1.1,
   (sends_noop_when_disconnected cDisc cRecv 0 (fun _ => false) [] [1] [2]
     "image/jpeg" "hi" rfl rfl).2.1,
   (sends_noop_when_disconnected cDisc cRecv 0 (fun _ => false) [] [1] [2]
     "image/jpeg" "hi" rfl rfl).2.2.2.2⟩

/-- C3 counterexample: on a connected client that is in the speaking
state (is_speaking true, is_listening false, as the receive loop leaves
it after the first audio part), send_audio DOES transition back to
listening: it fires the listening state-change event and sets
is_listening, contradicting the claim that sending while speaking does
not change the state back to listening. -/
theorem send_audio_while_speaking_fires_listening :
    cSpeaking.is_speaking = true ∧ cSpeaking.is_connected = true ∧
    (send_audio cSpeaking [0]).2
      = [ClientEvent.stateChange "listening",
         ClientEvent.sessionSend [0] "audio/pcm"] ∧
    (send_audio cSpeaking [0]).1.is_listening = true := by decide

/-- C3 as amended: on a connected client, send_audio while not yet
listening sets is_listening and fires the listening state-change event
before the channel send, even when the client is speaking; is_speaking
itself is never modified by send_audio; and when the client is already
listening the state is left unchanged and only the send happens. -/
theorem send_audio_listening_transition (c : LiveAPIClient) (s : Nat)
    (audio : List Nat) (hs : c.session = some s) (hc : c.is_connected = true) :
    (c.is_listening = false →
      send_audio c audio
        = ({ c with is_listening := true },
           (if c.on_state_change then [ClientEvent.stateChange "listening"] else [])
             ++ [ClientEvent.sessionSend audio "audio/pcm"])) ∧
    (send_audio c audio).1.is_speaking = c.is_speaking ∧
    (c.is_listening = true →
      send_audio c audio = (c, [ClientEvent.sessionSend audio "audio/pcm"])) := by
  unfold send_audio
  simp [hs, hc]
  cases hl : c.is_listening <;> simp [hl]

/-- Witness for C3 at the concrete speaking client. -/
theorem send_audio_listening_transition_witness :
    cSpeaking.session = some 0 ∧ cSpeaking.is_connected = true ∧
    (send_audio cSpeaking [0]).1.is_speaking = cSpeaking.is_speaking :=
  ⟨rfl, rfl, (send_audio_listening_transition cSpeaking 0 [0] rfl rfl).2.1⟩

/-- C4 counterexample: with a transcription listener that raises, the
receive loop over two messages invokes the raising listener on the first
message, then aborts: the error state-change fires, is_connected is
cleared, and the tool call carried by the second message is never
dispatched — contradicting the claim that a listener exception does not
abort the loop and does not produce the error state. -/
theorem listener_exception_aborts_receive_loop_cex :
    (receive_messages raisesOnTranscription cRecv
        [msgTranscriptionIn, msgToolCallOnly] false).1.is_connected = false ∧
    (receive_messages raisesOnTranscription cRecv
        [msgTranscriptionIn, msgToolCallOnly] false).2
      = [ClientEvent.transcription "hi" "input", ClientEvent.stateChange "error"] ∧
    ClientEvent.toolCall 5 ∉
      (receive_messages raisesOnTranscription cRecv
        [msgTranscriptionIn, msgToolCallOnly] false).2 := by decide

/-- C4 as amended: a listener exception DOES abort the receive loop.  If
processing a message raises, the loop result is the partial trace of that
message followed by the error exit, independent of all remaining
messages, and the client ends disconnected (state error). -/
theorem listener_exception_aborts_receive_loop (raises : ClientEvent → Bool)
    (c : LiveAPIClient) (s : Nat) (m : Message) (rest : List Message) (sf : Bool)
    (hs : c.session = some s)
    (hr : (processMessage raises c m).raised = true) :
    receive_messages raises c (m :: rest) sf
      = ((errorExit (processMessage raises c m).client).1,
         (processMessage raises c m).trace
           ++ (errorExit (processMessage raises c m).client).2) ∧
    (receive_messages raises c (m :: rest) sf).1.is_connected = false := by
  have hloop : receive_messages raises c (m :: rest) sf
      = receiveLoopAux raises c (m :: rest) sf := by
    unfold receive_messages
    rw [hs]
  constructor
  · rw [hloop]
    unfold receiveLoopAux
    simp [hr]
  · rw [hloop]
    unfold receiveLoopAux
    simp [hr]
    exact errorExit_disconnects (processMessage raises c m).client

/-- Witness for C4 at the concrete raising listener and message. -/
theorem listener_exception_aborts_receive_loop_witness :
    cRecv.session = some 0 ∧
    (processMessage raisesOnTranscription cRecv msgTranscriptionIn).raised = true ∧
    (receive_messages raisesOnTranscription cRecv
        [msgTranscriptionIn] false).1.is_connected = false :=
  ⟨rfl, by decide,
   (listener_exception_aborts_receive_loop raisesOnTranscription cRecv 0
     msgTranscriptionIn [] false rfl (by decide)).2⟩

/-- C9 counterexample: update_image performs no validation of the state
string, so it can leave a record in a state outside
{CAPTURED, USED, DISCARDED}: updating the single CAPTURED record with the
state string PENDING stores PENDING. -/
theorem update_image_accepts_invalid_state :
    (update_image dbCex 1 none none (some "PENDING")).2.map CapturedImage.state
      = some "PENDING" ∧
    "PENDING" ∉ validStates ∧
    ∃ r ∈ (update_image dbCex 1 none none (some "PENDING")).1,
      r.state ∉ validStates := by decide

/-- C9 as amended: store_image always creates records in state CAPTURED,
and update_image (hence mark_as_used and mark_as_discarded, which pass
USED and DISCARDED) keeps every state inside {CAPTURED, USED, DISCARDED}
whenever the supplied state argument is absent or itself in that set; but
update_image validates nothing, so a state argument outside the set is
stored as given. -/
theorem image_state_lifecycle (db : List CapturedImage) (newId : Nat)
    (fn fp : String) (nm cat md : Option String) (image_id : Nat)
    (nm2 cat2 st : Option String)
    (hdb : ∀ r ∈ db, r.state ∈ validStates)
    (hst : st = none ∨ ∃ s ∈ validStates, st = some s) :
    (store_image db newId fn fp nm cat md).2.state = "CAPTURED" ∧
    (∀ r ∈ (store_image db newId fn fp nm cat md).1, r.state ∈ validStates) ∧
    (∀ r ∈ (update_image db image_id nm2 cat2 st).1, r.state ∈ validStates) ∧
    (∀ r ∈ (mark_as_used db image_id).1, r.state ∈ validStates) ∧
    (∀ r ∈ (mark_as_discarded db image_id).1, r.state ∈ validStates) := by
  refine ⟨rfl, ?_, ?_, ?_, ?_⟩
  · intro r hr
    unfold store_image at hr
    simp at hr
    cases hr with
    | inl h => exact hdb r h
    | inr h => rw [h]; simp [validStates]
  · exact update_image_preserves_states db image_id nm2 cat2 st hdb hst
  · intro r hr
    unfold mark_as_used at hr
    exact update_image_preserves_states db image_id none none (some "USED") hdb
      (Or.inr ⟨"USED", by simp [validStates], rfl⟩) r hr
  · intro r hr
    unfold mark_as_discarded at hr
    exact update_image_preserves_states db image_id none none (some "DISCARDED") hdb
      (Or.inr ⟨"DISCARDED", by simp [validStates], rfl⟩) r hr

/-- Witness for C9 at the concrete one-record database. -/
theorem image_state_lifecycle_witness :
    (∀ r ∈ dbCex, r.state ∈ validStates) ∧
    (store_image dbCex 2 "snapshot_2.jpg" "static/images/snapshot_2.jpg"
      none none none).2.state = "CAPTURED" ∧
    (∀ r ∈ (mark_as_used dbCex 1).1, r.state ∈ validStates) :=
  ⟨by decide,
   (image_state_lifecycle dbCex 2 "snapshot_2.jpg" "static/images/snapshot_2.jpg"
     none none none 1 none none (some "USED") (by decide)
     (Or.inr ⟨"USED", by decide, rfl⟩)).1,
   (image_state_lifecycle dbCex 2 "snapshot_2.jpg" "static/images/snapshot_2.jpg"
     none none none 1 none none (some "USED") (by decide)
     (Or.inr ⟨"USED", by decide, rfl⟩)).2.2.2.1⟩
